import Mathlib

/-!
Verification of the CurtsDDNS dynamic-DNS updater (src/cloudflare_module.py
and src/curtsddns.py) against its natural-language specification.

The Python code is shallowly embedded: pure string/arithmetic logic is
translated directly; every network interaction (HTTP responses from the
IP-echo endpoints, the Cloudflare /ips API, and the Cloudflare DNS API)
is a parameter of the embedded function, so one Lean value of the
environment type corresponds to one concrete execution of the Python code.
IPv4 addresses are Nat values below 2^32; parsing follows CPython's
ipaddress module (version 3.11 constants), which is what the source calls.
-/

namespace CurtsDDNS

/-- Split a character list at every character satisfying p, keeping empty
segments, exactly like Python str.split with an explicit separator
(CPython list semantics: the result always has at least one segment). -/
def splitOnP (p : Char → Bool) : List Char → List (List Char)
  | [] => [[]]
  | c :: cs =>
    if p c then [] :: splitOnP p cs
    else
      match splitOnP p cs with
      | [] => [[c]]
      | h :: t => (c :: h) :: t

/-- Numeric value of a decimal digit string (folds left like int()). -/
def digitsToNat (l : List Char) : Nat :=
  l.foldl (fun n c => n * 10 + (c.toNat - 48)) 0

/-- One dotted-quad octet, following CPython ipaddress._parse_octet:
nonempty, ASCII digits only, at most 3 characters, no leading zero
(ambiguous-octal rejection), value at most 255. -/
def parseOctet (l : List Char) : Option Nat :=
  if l = [] then none
  else if !(l.all Char.isDigit) then none
  else if l.length > 3 then none
  else if l.length > 1 && l.head? == some '0' then none
  else
    let n := digitsToNat l
    if n ≤ 255 then some n else none

/-- CPython ipaddress.IPv4Address string parsing: exactly four octets
separated by dots. Result is the 32-bit integer value of the address. -/
def parseIPv4Chars (l : List Char) : Option Nat :=
  match splitOnP (fun c => c = '.') l with
  | [a, b, c, d] =>
    match parseOctet a, parseOctet b, parseOctet c, parseOctet d with
    | some x, some y, some z, some w =>
      some (((x * 256 + y) * 256 + z) * 256 + w)
    | _, _, _, _ => none
  | _ => none

/-- Parse a string as an IPv4 address (ipaddress.IPv4Address(ip_str)). -/
def parseIPv4 (s : String) : Option Nat :=
  parseIPv4Chars s.data

/-- A CIDR network: network address (high bits) and mask length.
The strict IPv4Network constructor guarantees the host bits are zero. -/
structure Net where
  addr : Nat
  plen : Nat
deriving DecidableEq

/-- Membership of address ip in network n (IPv4Network.__contains__):
the two addresses agree on the top plen bits. -/
def memNet (ip : Nat) (n : Net) : Bool :=
  ip / 2 ^ (32 - n.plen) == n.addr / 2 ^ (32 - n.plen)

/-- Mask length of a CIDR suffix, following CPython
ipaddress._prefix_from_prefix_string: ASCII digits only (leading zeros
allowed by int()), value at most 32. The alternative dotted-netmask and
hostmask spellings accepted by CPython are not modelled: no input of this
program uses them. -/
def parsePlenChars (l : List Char) : Option Nat :=
  if l = [] then none
  else if !(l.all Char.isDigit) then none
  else
    let n := digitsToNat l
    if n ≤ 32 then some n else none

/-- CPython ipaddress.IPv4Network(cidr) with the default strict=True:
an address with an optional /plen suffix; fails when host bits are set. -/
def parseNet (s : String) : Option Net :=
  match splitOnP (fun c => c = '/') s.data with
  | [a] => (parseIPv4Chars a).map (fun ip => ⟨ip, 32⟩)
  | [a, p] =>
    match parseIPv4Chars a, parsePlenChars p with
    | some ip, some l => if ip % 2 ^ (32 - l) = 0 then some ⟨ip, l⟩ else none
    | _, _ => none
  | _ => none

/-- The 32-bit value of dotted quad a.b.c.d. -/
def ipv4 (a b c d : Nat) : Nat :=
  ((a * 256 + b) * 256 + c) * 256 + d

/-- CPython 3.11 ipaddress._IPv4Constants._private_networks, the ranges
whose members have is_private = True. -/
def privateNetworks : List Net :=
  [⟨ipv4 0 0 0 0, 8⟩,
   ⟨ipv4 10 0 0 0, 8⟩,
   ⟨ipv4 127 0 0 0, 8⟩,
   ⟨ipv4 169 254 0 0, 16⟩,
   ⟨ipv4 172 16 0 0, 12⟩,
   ⟨ipv4 192 0 0 0, 29⟩,
   ⟨ipv4 192 0 0 170, 31⟩,
   ⟨ipv4 192 0 2 0, 24⟩,
   ⟨ipv4 192 168 0 0, 16⟩,
   ⟨ipv4 198 18 0 0, 15⟩,
   ⟨ipv4 198 51 100 0, 24⟩,
   ⟨ipv4 203 0 113 0, 24⟩,
   ⟨ipv4 240 0 0 0, 4⟩,
   ⟨ipv4 255 255 255 255, 32⟩]

/-- IPv4Address.is_private: membership in any private network. -/
def is_private (ip : Nat) : Bool :=
  privateNetworks.any (memNet ip)

/-- CPython ipaddress._IPv4Constants._public_network = 100.64.0.0/10
(the carrier-grade NAT shared address space). -/
def sharedAddressSpace : Net :=
  ⟨ipv4 100 64 0 0, 10⟩

/-- IPv4Address.is_global: not in 100.64.0.0/10 and not private. -/
def is_global (ip : Nat) : Bool :=
  !(memNet ip sharedAddressSpace) && !(is_private ip)

/-- The hardcoded static fallback list of Cloudflare IPv4 CIDR ranges
(cloudflare_module.py lines 66-82). -/
def cloudflare_fallback_cidrs : List String :=
  ["173.245.48.0/20",
   "103.21.244.0/22",
   "103.22.200.0/22",
   "103.31.4.0/22",
   "141.101.64.0/18",
   "108.162.192.0/18",
   "190.93.240.0/20",
   "188.114.96.0/20",
   "197.234.240.0/22",
   "198.41.128.0/17",
   "162.158.0.0/15",
   "104.16.0.0/13",
   "104.24.0.0/14",
   "172.64.0.0/13",
   "131.0.72.0/22"]

/-- The two resolver ranges always appended (cloudflare_module.py line 94). -/
def extra_blocked_cidrs : List String :=
  ["1.1.1.0/24", "1.0.0.0/24"]

/-- Outcome of the GET to the Cloudflare /ips API as seen by
_load_cloudflare_ipv4_networks: failure is the exception path (transport
error, raise_for_status on a non-2xx status, or a .json() fault); ok l
carries the value of result.get with the or-[] coalescing applied, so a
successful response with a missing, null or empty ipv4_cidrs field is
ok []. -/
inductive RangesFetch where
  | failure
  | ok (ipv4_cidrs : List String)
deriving DecidableEq

/-- The cidrs list selected by the try/except in
_load_cloudflare_ipv4_networks: the live list on success, the static
fallback on the exception path. -/
def source_cidrs : RangesFetch → List String
  | .failure => cloudflare_fallback_cidrs
  | .ok cidrs => cidrs

/-- The networks parsed from the selected cidrs list; each entry is parsed
with IPv4Network and malformed entries are skipped (the inner
try/except ValueError/continue loop). -/
def source_networks (f : RangesFetch) : List Net :=
  (source_cidrs f).filterMap parseNet

/-- The two resolver networks appended after the main loop. -/
def extra_blocked_networks : List Net :=
  extra_blocked_cidrs.filterMap parseNet

/-- _load_cloudflare_ipv4_networks: parsed source ranges followed by the
appended resolver ranges. The process-lifetime memoisation (the module
global) is not modelled: a single call per load suffices. -/
def load_cloudflare_ipv4_networks (f : RangesFetch) : List Net :=
  source_networks f ++ extra_blocked_networks

/-- The for-loop of _is_public_non_cloudflare_ipv4: return False on the
first network containing ip, True after the loop. -/
def no_network_contains (ip : Nat) : List Net → Bool
  | [] => true
  | n :: rest => if memNet ip n then false else no_network_contains ip rest

/-- _is_public_non_cloudflare_ipv4(ip_str) with the loaded network list as
an explicit argument: parse (AddressValueError gives False), reject
non-global addresses, then scan the block ranges. -/
def is_public_non_cloudflare_ipv4 (networks : List Net) (ip_str : String) : Bool :=
  match parseIPv4 ip_str with
  | none => false
  | some ip =>
    if !(is_global ip) then false
    else no_network_contains ip networks

/-- Reference definition of the validation predicate, written from the
spec's words (section 4.1, is_acceptable_candidate): false when the
string fails IPv4 parsing, false when the address is not globally
routable, false when it falls inside any range of the set, true
otherwise. -/
def is_acceptable_candidate_spec (networks : List Net) (s : String) : Bool :=
  match parseIPv4 s with
  | none => false
  | some ip =>
    is_global ip && decide (∀ n ∈ networks, memNet ip n = false)

/-- Outcome of the GET to one IP-echo endpoint as seen inside the try of
get_public_ip: netError is an exception from requests.get or
raise_for_status (transport error, timeout, non-2xx status, identified by
an opaque message); ok carries response.text on a 2xx response. -/
inductive EndpointResult where
  | netError (msg : String)
  | ok (text : String)
deriving DecidableEq

/-- The exceptions get_public_ip can catch and record in last_error:
the request fault, or the IndexError raised by text.split()[0] when the
stripped body has no token. Validation rejections raise nothing and are
therefore absent from this type. -/
inductive FetchFault where
  | transport (msg : String)
  | emptyBody
deriving DecidableEq

/-- candidate_ip extraction (lines 151-153): strip the body, split on
whitespace, take the first token. Stripping is absorbed by splitting and
dropping empty segments; none models the IndexError on an empty or
all-whitespace body. -/
def firstToken (text : String) : Option String :=
  ((splitOnP Char.isWhitespace text.data).filter (fun seg => seg ≠ [])).head?.map
    (fun seg => ⟨seg⟩)

/-- The fixed ordered endpoint list of get_public_ip (lines 137-142). -/
def endpoints : List String :=
  ["https://api.ipify.org",
   "https://ifconfig.me",
   "https://icanhazip.com",
   "https://checkmyip.app/"]

/-- The for-loop of get_public_ip over the remaining endpoint outcomes,
threading last_error. A request fault records it and continues; an empty
body records the IndexError and continues; a rejected candidate continues
WITHOUT touching last_error (the continue on line 162 is not an
exception); an accepted candidate returns at once. After the loop, the
final RuntimeError carries last_error as its cause (raise ... from). -/
def get_public_ip_loop (networks : List Net) :
    List EndpointResult → Option FetchFault → Except (Option FetchFault) String
  | [], last => .error last
  | .netError m :: rest, _ =>
    get_public_ip_loop networks rest (some (.transport m))
  | .ok text :: rest, last =>
    match firstToken text with
    | none => get_public_ip_loop networks rest (some .emptyBody)
    | some cand =>
      if is_public_non_cloudflare_ipv4 networks cand then .ok cand
      else get_public_ip_loop networks rest last

/-- get_public_ip: run the loop over the fixed endpoints, each answered by
the environment http, starting with last_error = None. -/
def get_public_ip (networks : List Net) (http : String → EndpointResult) :
    Except (Option FetchFault) String :=
  get_public_ip_loop networks (endpoints.map http) none

/-- The candidate one endpoint outcome contributes: some c exactly when
the body yields a first token that passes validation. -/
def accepted_candidate (networks : List Net) : EndpointResult → Option String
  | .netError _ => none
  | .ok text =>
    match firstToken text with
    | none => none
    | some cand =>
      if is_public_non_cloudflare_ipv4 networks cand then some cand else none

/-- How one endpoint outcome updates last_error: a request fault or an
empty body overwrites it; a body with a token leaves it unchanged,
whether the candidate is accepted or rejected. -/
def recordedFault (last : Option FetchFault) (r : EndpointResult) :
    Option FetchFault :=
  match r with
  | .netError m => some (.transport m)
  | .ok text =>
    match firstToken text with
    | none => some .emptyBody
    | some _ => last

/-- One DNS A record from the provider's list response: its opaque id and
its content (the currently published IP). -/
structure DnsRecord where
  id : String
  content : String
deriving DecidableEq

/-- The JSON envelope of the record-listing GET: success flag, result
list (with the get-or-[] coalescing of get_existing_dns_ip applied), and
the errors payload rendered as a string. -/
structure ListEnvelope where
  success : Bool
  result : List DnsRecord
  errors : String
deriving DecidableEq

/-- The JSON envelope of the record-update PUT response. -/
structure PutEnvelope where
  success : Bool
  errors : String
deriving DecidableEq

/-- The dns_data JSON body of the record-update PUT (lines 238-244). -/
structure DnsUpdateBody where
  rtype : String
  name : String
  content : String
  ttl : Nat
  proxied : Bool
deriving DecidableEq

/-- The dict update_dns returns: status and message fields. -/
structure UpdateResult where
  status : String
  message : String
deriving DecidableEq

/-- Exceptions the syncer functions can raise: the IndexError of
result[0] on an empty list in update_dns, the explicit no-records raise
in get_existing_dns_ip, and its envelope-failure raise. -/
inductive PyFault where
  | indexError
  | noRecords
  | apiError
deriving DecidableEq

/-- update_dns(ip_address): on a successful list envelope take the first
record's id (IndexError when the list is empty) and issue one PUT whose
body is fixed except for content; the PUT result dict reports success or
failure from the PUT envelope. On a failed list envelope, report failure
without issuing a PUT. The second component collects the issued PUT
calls as (record id, body) pairs. -/
def update_dns (record_name : String) (listResp : ListEnvelope)
    (putResp : PutEnvelope) (ip_address : String) :
    Except PyFault UpdateResult × List (String × DnsUpdateBody) :=
  if listResp.success then
    match listResp.result with
    | [] => (.error .indexError, [])
    | r0 :: _ =>
      let dns_data : DnsUpdateBody := ⟨"A", record_name, ip_address, 120, false⟩
      if putResp.success then
        (.ok ⟨"success", "DNS updated successfully"⟩, [(r0.id, dns_data)])
      else
        (.ok ⟨"failure",
              "Failed to update DNS. Error: " ++ putResp.errors⟩,
         [(r0.id, dns_data)])
  else
    (.ok ⟨"failure",
          "Failed to fetch existing DNS record ID. Error: " ++ listResp.errors⟩,
     [])

/-- get_existing_dns_ip: on a successful envelope return the first
record's content, raising when the list is empty; raise on a failed
envelope. -/
def get_existing_dns_ip (listResp : ListEnvelope) : Except PyFault String :=
  if listResp.success then
    match listResp.result with
    | [] => .error .noRecords
    | r0 :: _ => .ok r0.content
  else .error .apiError

/-- The environment one cycle of main's while-loop sees: the outcome of
get_public_ip, and the provider's responses. The record-listing GET is
issued twice in a divergent cycle (once by get_existing_dns_ip, once
inside update_dns) against the same URL within one cycle, so one envelope
answers both. -/
structure CycleEnv where
  resolved : Except (Option FetchFault) String
  listResp : ListEnvelope
  putResp : PutEnvelope

/-- How one cycle of main's loop ends: in sync (the equal branch), an
update attempt whose result dict was handled, or an exception swallowed
by the outer try/except (line 172) before the sleep. -/
inductive CycleOutcome where
  | inSync
  | updated (res : UpdateResult)
  | errorCaught
deriving DecidableEq

/-- The body of one iteration of main's while-loop (lines 135-174, with
the optional auto-update step out of scope): resolve, fetch, compare,
maybe update. Every exception lands in the outer except and the loop
proceeds to the sleep, so the result is total; the second component
collects the PUT calls issued during the cycle. -/
def run_cycle (record_name : String) (env : CycleEnv) :
    CycleOutcome × List (String × DnsUpdateBody) :=
  match env.resolved with
  | .error _ => (.errorCaught, [])
  | .ok public_ip =>
    match get_existing_dns_ip env.listResp with
    | .error _ => (.errorCaught, [])
    | .ok existing_ip =>
      if public_ip ≠ existing_ip then
        match update_dns record_name env.listResp env.putResp public_ip with
        | (.ok res, puts) => (.updated res, puts)
        | (.error _, puts) => (.errorCaught, puts)
      else
        (.inSync, [])

/-- The while-True loop over a stream of cycle environments: every cycle
completes and the loop moves to the next one. -/
def run_cycles (record_name : String) (envs : List CycleEnv) :
    List (CycleOutcome × List (String × DnsUpdateBody)) :=
  envs.map (run_cycle record_name)

/-- The for-loop of the validation predicate returns True exactly when no
block range contains the address. -/
theorem no_network_contains_iff (ip : Nat) :
    ∀ l : List Net, no_network_contains ip l = true ↔ ∀ n ∈ l, memNet ip n = false
  | [] => by simp [no_network_contains]
  | n :: rest => by
    by_cases hm : memNet ip n = true
    · simp [no_network_contains, hm]
    · have hm' : memNet ip n = false := by
        cases h : memNet ip n
        · rfl
        · exact absurd h hm
      simp [no_network_contains, hm', no_network_contains_iff ip rest]

/-- The for-loop of the validation predicate returns False as soon as one
listed range contains the address. -/
theorem no_network_contains_eq_false_of_mem (ip : Nat) (n : Net) :
    ∀ l : List Net, n ∈ l → memNet ip n = true → no_network_contains ip l = false
  | [], h, _ => by cases h
  | m :: rest, h, hm => by
    rcases List.mem_cons.mp h with h1 | h1
    · subst h1; simp [no_network_contains, hm]
    · by_cases hmm : memNet ip m = true
      · simp [no_network_contains, hmm]
      · have hmm' : memNet ip m = false := by
          cases hc : memNet ip m
          · rfl
          · exact absurd hc hmm
        simp [no_network_contains, hmm',
              no_network_contains_eq_false_of_mem ip n rest h1 hm]

/-- Unfolding of the validation predicate at a string that parses. -/
theorem is_public_eq_of_parse (networks : List Net) (s : String) (ip : Nat)
    (hp : parseIPv4 s = some ip) :
    is_public_non_cloudflare_ipv4 networks s
      = if !(is_global ip) then false else no_network_contains ip networks := by
  unfold is_public_non_cloudflare_ipv4
  rw [hp]

/-- Unfolding of the validation predicate at a string that fails to
parse. -/
theorem is_public_eq_of_no_parse (networks : List Net) (s : String)
    (hp : parseIPv4 s = none) :
    is_public_non_cloudflare_ipv4 networks s = false := by
  unfold is_public_non_cloudflare_ipv4
  rw [hp]

/-- A candidate inside a listed block range is rejected. -/
theorem blocked_candidate_rejected (networks : List Net) (s : String) (ip : Nat)
    (n : Net) (hp : parseIPv4 s = some ip) (hn : n ∈ networks)
    (hm : memNet ip n = true) :
    is_public_non_cloudflare_ipv4 networks s = false := by
  rw [is_public_eq_of_parse networks s ip hp]
  by_cases hg : (!(is_global ip)) = true
  · rw [if_pos hg]
  · rw [if_neg hg]
    exact no_network_contains_eq_false_of_mem ip n networks hn hm

/-- Any string the endpoint loop returns passes the validation
predicate: the only return statement sits behind the check. -/
theorem loop_ok_valid (networks : List Net) :
    ∀ (l : List EndpointResult) (last : Option FetchFault) (s : String),
      get_public_ip_loop networks l last = .ok s →
      is_public_non_cloudflare_ipv4 networks s = true
  | [], _, s, h => by simp [get_public_ip_loop] at h
  | .netError m :: rest, _, s, h =>
    loop_ok_valid networks rest (some (.transport m)) s h
  | .ok text :: rest, last, s, h => by
    rw [get_public_ip_loop] at h
    cases hft : firstToken text with
    | none =>
      simp only [hft] at h
      exact loop_ok_valid networks rest (some .emptyBody) s h
    | some cand =>
      simp only [hft] at h
      by_cases hv : is_public_non_cloudflare_ipv4 networks cand = true
      · rw [if_pos hv] at h
        cases h
        exact hv
      · rw [if_neg hv] at h
        exact loop_ok_valid networks rest last s h

/-- C1: every value returned by get_public_ip satisfies the acceptance
predicate: it parses as an IPv4 address, the address is globally
routable, and no range in the loaded block set contains it; no
non-global or block-listed value is ever returned. -/
theorem c1_resolved_address_validated (networks : List Net)
    (http : String → EndpointResult) (s : String)
    (h : get_public_ip networks http = .ok s) :
    is_public_non_cloudflare_ipv4 networks s = true ∧
    ∃ ip, parseIPv4 s = some ip ∧ is_global ip = true ∧
      ∀ n ∈ networks, memNet ip n = false := by
  have hv := loop_ok_valid networks (endpoints.map http) none s h
  refine ⟨hv, ?_⟩
  cases hp : parseIPv4 s with
  | none =>
    rw [is_public_eq_of_no_parse networks s hp] at hv
    cases hv
  | some ip =>
    rw [is_public_eq_of_parse networks s ip hp] at hv
    by_cases hg : is_global ip = true
    · refine ⟨ip, rfl, hg, ?_⟩
      rw [hg] at hv
      simp only [Bool.not_true, Bool.false_eq_true, if_false] at hv
      exact (no_network_contains_iff ip networks).mp hv
    · have hg' : is_global ip = false := by
        cases hgc : is_global ip
        · rfl
        · exact absurd hgc hg
      rw [hg'] at hv
      simp at hv

/-- Witness for C1: with the fallback block set and every endpoint
answering 93.184.216.34, resolution returns that address and it
satisfies the full acceptance predicate. -/
theorem c1_witness :
    get_public_ip (load_cloudflare_ipv4_networks RangesFetch.failure)
        (fun _ => EndpointResult.ok "93.184.216.34")
      = .ok "93.184.216.34" ∧
    (is_public_non_cloudflare_ipv4
        (load_cloudflare_ipv4_networks RangesFetch.failure) "93.184.216.34" = true ∧
     ∃ ip, parseIPv4 "93.184.216.34" = some ip ∧ is_global ip = true ∧
       ∀ n ∈ load_cloudflare_ipv4_networks RangesFetch.failure,
         memNet ip n = false) :=
  ⟨rfl, c1_resolved_address_validated
          (load_cloudflare_ipv4_networks RangesFetch.failure)
          (fun _ => EndpointResult.ok "93.184.216.34") "93.184.216.34" rfl⟩

/-- C2: the code's validation predicate coincides with the reference
predicate written from the spec: false on parse failure, false on a
non-global address, false inside any loaded block range, true
otherwise. -/
theorem c2_predicate_matches_reference (networks : List Net) (s : String) :
    is_public_non_cloudflare_ipv4 networks s
      = is_acceptable_candidate_spec networks s := by
  cases hp : parseIPv4 s with
  | none =>
    have h2 : is_acceptable_candidate_spec networks s = false := by
      unfold is_acceptable_candidate_spec
      rw [hp]
    rw [is_public_eq_of_no_parse networks s hp, h2]
  | some ip =>
    have h2 : is_acceptable_candidate_spec networks s
        = (is_global ip && decide (∀ n ∈ networks, memNet ip n = false)) := by
      unfold is_acceptable_candidate_spec
      rw [hp]
    rw [is_public_eq_of_parse networks s ip hp, h2]
    by_cases hg : is_global ip = true
    · rw [hg]
      simp only [Bool.not_true, Bool.true_and]
      rw [if_neg (by simp)]
      by_cases hP : ∀ n ∈ networks, memNet ip n = false
      · rw [(no_network_contains_iff ip networks).mpr hP, decide_eq_true hP]
      · rw [decide_eq_false hP]
        cases hnc : no_network_contains ip networks
        · rfl
        · exact absurd ((no_network_contains_iff ip networks).mp hnc) hP
    · have hg' : is_global ip = false := by
        cases hgc : is_global ip
        · rfl
        · exact absurd hgc hg
      rw [hg']
      simp

/-- The endpoint loop skips every non-contributing outcome and returns
the first accepted candidate, whatever comes later and whatever
last_error holds. -/
theorem loop_first_success (networks : List Net) :
    ∀ (pre : List EndpointResult) (r : EndpointResult)
      (rest : List EndpointResult) (last : Option FetchFault) (c : String),
      (∀ e ∈ pre, accepted_candidate networks e = none) →
      accepted_candidate networks r = some c →
      get_public_ip_loop networks (pre ++ r :: rest) last = .ok c
  | [], r, rest, last, c, _, hr => by
    cases r with
    | netError m => simp [accepted_candidate] at hr
    | ok text =>
      rw [List.nil_append, get_public_ip_loop]
      cases hft : firstToken text with
      | none =>
        simp only [accepted_candidate, hft] at hr
        cases hr
      | some cand =>
        simp only [accepted_candidate, hft] at hr ⊢
        by_cases hv : is_public_non_cloudflare_ipv4 networks cand = true
        · rw [if_pos hv] at hr ⊢
          cases hr
          rfl
        · rw [if_neg hv] at hr
          cases hr
  | e :: pre, r, rest, last, c, hpre, hr => by
    have he : accepted_candidate networks e = none :=
      hpre e (List.mem_cons_self e pre)
    have hpre' : ∀ x ∈ pre, accepted_candidate networks x = none :=
      fun x hx => hpre x (List.mem_cons_of_mem e hx)
    cases e with
    | netError m =>
      rw [List.cons_append, get_public_ip_loop]
      exact loop_first_success networks pre r rest (some (.transport m)) c hpre' hr
    | ok text =>
      rw [List.cons_append, get_public_ip_loop]
      cases hft : firstToken text with
      | none =>
        simp only [hft]
        exact loop_first_success networks pre r rest (some .emptyBody) c hpre' hr
      | some cand =>
        simp only [accepted_candidate, hft] at he
        simp only [hft]
        by_cases hv : is_public_non_cloudflare_ipv4 networks cand = true
        · rw [if_pos hv] at he
          cases he
        · rw [if_neg hv]
          exact loop_first_success networks pre r rest last c hpre' hr

/-- C4: get_public_ip scans the fixed ordered endpoint list, falls past
every endpoint that errors or yields a rejected or missing candidate, and
returns the first accepted candidate; the outcomes of the endpoints after
it (rest) are arbitrary, so they are never consulted. -/
theorem c4_first_success_wins (networks : List Net)
    (http : String → EndpointResult) (pre rest : List EndpointResult)
    (r : EndpointResult) (c : String)
    (h1 : endpoints.map http = pre ++ r :: rest)
    (h2 : ∀ e ∈ pre, accepted_candidate networks e = none)
    (h3 : accepted_candidate networks r = some c) :
    get_public_ip networks http = .ok c := by
  unfold get_public_ip
  rw [h1]
  exact loop_first_success networks pre r rest none c h2 h3

/-- Witness for C4: the first endpoint fails with a transport error, the
second returns an acceptable address, the last two are never consulted
(here they would answer a private address). -/
theorem c4_witness :
    endpoints.map
        (fun u => if u = "https://api.ipify.org" then EndpointResult.netError "down"
                  else if u = "https://ifconfig.me" then EndpointResult.ok "93.184.216.34"
                  else EndpointResult.ok "10.0.0.1")
      = [EndpointResult.netError "down"]
        ++ EndpointResult.ok "93.184.216.34"
          :: [EndpointResult.ok "10.0.0.1", EndpointResult.ok "10.0.0.1"] ∧
    (∀ e ∈ [EndpointResult.netError "down"],
      accepted_candidate (load_cloudflare_ipv4_networks RangesFetch.failure) e
        = none) ∧
    accepted_candidate (load_cloudflare_ipv4_networks RangesFetch.failure)
        (EndpointResult.ok "93.184.216.34") = some "93.184.216.34" ∧
    get_public_ip (load_cloudflare_ipv4_networks RangesFetch.failure)
        (fun u => if u = "https://api.ipify.org" then EndpointResult.netError "down"
                  else if u = "https://ifconfig.me" then EndpointResult.ok "93.184.216.34"
                  else EndpointResult.ok "10.0.0.1")
      = .ok "93.184.216.34" :=
  ⟨by decide, by decide, by decide,
   c4_first_success_wins (load_cloudflare_ipv4_networks RangesFetch.failure)
     (fun u => if u = "https://api.ipify.org" then EndpointResult.netError "down"
               else if u = "https://ifconfig.me" then EndpointResult.ok "93.184.216.34"
               else EndpointResult.ok "10.0.0.1")
     [EndpointResult.netError "down"]
     [EndpointResult.ok "10.0.0.1", EndpointResult.ok "10.0.0.1"]
     (EndpointResult.ok "93.184.216.34") "93.184.216.34"
     (by decide) (by decide) (by decide)⟩

/-- When every outcome is rejected, the loop reaches the final raise and
the carried cause is the fold of the recorded exceptions only. -/
theorem loop_all_rejected (networks : List Net) :
    ∀ (l : List EndpointResult) (last : Option FetchFault),
      (∀ r ∈ l, accepted_candidate networks r = none) →
      get_public_ip_loop networks l last = .error (l.foldl recordedFault last)
  | [], last, _ => rfl
  | .netError m :: rest, last, h => by
    rw [get_public_ip_loop, List.foldl_cons]
    exact loop_all_rejected networks rest (some (.transport m))
      (fun r hr => h r (List.mem_cons_of_mem _ hr))
  | .ok text :: rest, last, h => by
    have he := h (.ok text) (List.mem_cons_self _ rest)
    have hrest : ∀ r ∈ rest, accepted_candidate networks r = none :=
      fun r hr => h r (List.mem_cons_of_mem _ hr)
    rw [get_public_ip_loop, List.foldl_cons]
    unfold accepted_candidate at he
    unfold recordedFault
    cases hft : firstToken text with
    | none =>
      simp only [hft]
      exact loop_all_rejected networks rest (some .emptyBody) hrest
    | some cand =>
      simp only [hft] at he ⊢
      by_cases hv : is_public_non_cloudflare_ipv4 networks cand = true
      · rw [if_pos hv] at he
        cases he
      · rw [if_neg hv]
        exact loop_all_rejected networks rest last hrest

/-- If the loop ends in the final raise, every outcome was rejected. -/
theorem loop_error_all_rejected (networks : List Net) :
    ∀ (l : List EndpointResult) (last e : Option FetchFault),
      get_public_ip_loop networks l last = .error e →
      ∀ r ∈ l, accepted_candidate networks r = none
  | [], _, _, _, r, hr => by cases hr
  | .netError m :: rest, last, e, h, r, hr => by
    rw [get_public_ip_loop] at h
    rcases List.mem_cons.mp hr with h1 | h1
    · subst h1; rfl
    · exact loop_error_all_rejected networks rest (some (.transport m)) e h r h1
  | .ok text :: rest, last, e, h, r, hr => by
    rw [get_public_ip_loop] at h
    cases hft : firstToken text with
    | none =>
      simp only [hft] at h
      rcases List.mem_cons.mp hr with h1 | h1
      · subst h1
        simp only [accepted_candidate, hft]
      · exact loop_error_all_rejected networks rest (some .emptyBody) e h r h1
    | some cand =>
      simp only [hft] at h
      by_cases hv : is_public_non_cloudflare_ipv4 networks cand = true
      · rw [if_pos hv] at h
        cases h
      · rw [if_neg hv] at h
        rcases List.mem_cons.mp hr with h1 | h1
        · subst h1
          simp only [accepted_candidate, hft]
          rw [if_neg hv]
        · exact loop_error_all_rejected networks rest last e h r h1

/-- C5 (amended): get_public_ip raises exactly when every endpoint fails
or yields a rejected candidate, and the raised error's cause is the fold
of the recorded exceptions (transport faults and empty-body faults) over
the outcomes; validation rejections leave the recorded cause unchanged,
so the cause is the last exception, not the last rejection, and it is
empty when no exception occurred. -/
theorem c5_failure_iff_last_exception (networks : List Net)
    (http : String → EndpointResult) :
    ((∃ e, get_public_ip networks http = .error e) ↔
      ∀ r ∈ endpoints.map http, accepted_candidate networks r = none) ∧
    ((∀ r ∈ endpoints.map http, accepted_candidate networks r = none) →
      get_public_ip networks http
        = .error ((endpoints.map http).foldl recordedFault none)) := by
  constructor
  · constructor
    · rintro ⟨e, he⟩
      exact loop_error_all_rejected networks (endpoints.map http) none e he
    · intro h
      exact ⟨_, loop_all_rejected networks (endpoints.map http) none h⟩
  · intro h
    exact loop_all_rejected networks (endpoints.map http) none h

/-- Witness for C5: with every endpoint failing with a transport error,
resolution raises and the cause is the last transport error. -/
theorem c5_witness :
    (∀ r ∈ endpoints.map (fun _ => EndpointResult.netError "down"),
      accepted_candidate [] r = none) ∧
    get_public_ip [] (fun _ => EndpointResult.netError "down")
      = .error ((endpoints.map (fun _ => EndpointResult.netError "down")).foldl
          recordedFault none) :=
  ⟨by decide,
   (c5_failure_iff_last_exception [] (fun _ => EndpointResult.netError "down")).2
     (by decide)⟩

/-- C5 counterexample: the first endpoint fails with a transport error
and the three later endpoints return the private address 10.0.0.1, so the
last event before the final raise is a validation rejection; the raised
error nevertheless carries the first endpoint's transport error as its
cause, because the rejection branch (the continue on line 162) records
nothing in last_error. The claim's assertion that a trailing validation
rejection becomes the carried cause is therefore false. -/
theorem c5_counterexample :
    get_public_ip (load_cloudflare_ipv4_networks RangesFetch.failure)
        (fun u => if u = "https://api.ipify.org" then EndpointResult.netError "boom"
                  else EndpointResult.ok "10.0.0.1")
      = .error (some (.transport "boom")) ∧
    accepted_candidate (load_cloudflare_ipv4_networks RangesFetch.failure)
        (EndpointResult.ok "10.0.0.1") = none ∧
    endpoints.map
        (fun u => if u = "https://api.ipify.org" then EndpointResult.netError "boom"
                  else EndpointResult.ok "10.0.0.1")
      = [EndpointResult.netError "boom", EndpointResult.ok "10.0.0.1",
         EndpointResult.ok "10.0.0.1", EndpointResult.ok "10.0.0.1"] :=
  ⟨rfl, by decide, by decide⟩

/-- C3: in one cycle where resolution returned A and the record fetch
succeeded with first record content c, the issued record-update calls are
none when A equals c, and exactly one PUT whose body carries A as
content, ttl 120 and proxied false when they differ. -/
theorem c3_reconciliation_update (record_name A rid c errs : String)
    (rest : List DnsRecord) (putResp : PutEnvelope) :
    (run_cycle record_name
        ⟨.ok A, ⟨true, ⟨rid, c⟩ :: rest, errs⟩, putResp⟩).2
      = if A = c then []
        else [(rid, ⟨"A", record_name, A, 120, false⟩)] := by
  by_cases h : A = c
  · subst h
    simp [run_cycle, get_existing_dns_ip]
  · rw [if_neg h]
    cases hps : putResp.success
    · simp [run_cycle, get_existing_dns_ip, update_dns, h, hps]
    · simp [run_cycle, get_existing_dns_ip, update_dns, h, hps]

/-- C6 counterexample: a live fetch that succeeds with an empty
ipv4_cidrs list — listed by the claim as a failure that must use the
fallback — does not use the static fallback: the loaded set is only the
two appended resolver ranges (2 networks), while the fallback load yields
17; the cidrs selected on this path are empty. -/
theorem c6_counterexample :
    (load_cloudflare_ipv4_networks (RangesFetch.ok [])).length = 2 ∧
    (load_cloudflare_ipv4_networks RangesFetch.failure).length = 17 ∧
    source_networks (RangesFetch.ok []) = [] := by
  decide

/-- C6 (amended): the exception path of the live fetch (network error,
non-2xx status, malformed JSON) selects the static fallback list, which
is non-empty (15 entries, all of which parse into the loaded set of 17);
a successful fetch whose ipv4_cidrs list is empty keeps the empty list
and contributes no source ranges. -/
theorem c6_fallback_on_exception_path :
    cloudflare_fallback_cidrs.length = 15 ∧
    (source_networks RangesFetch.failure).length = 15 ∧
    (load_cloudflare_ipv4_networks RangesFetch.failure).length = 17 ∧
    (⟨ipv4 173 245 48 0, 20⟩ : Net)
      ∈ load_cloudflare_ipv4_networks RangesFetch.failure ∧
    source_networks (RangesFetch.ok []) = [] := by
  decide

/-- C7 counterexample: a successful live fetch whose only entry is
malformed completes the load with a set that contains no range from
either the live fetch or the static fallback: every element is one of the
two appended resolver ranges. -/
theorem c7_counterexample :
    load_cloudflare_ipv4_networks (RangesFetch.ok ["not-a-cidr"])
      = extra_blocked_networks ∧
    source_networks (RangesFetch.ok ["not-a-cidr"]) = [] := by
  decide

/-- C7 (amended): after every completed load the block-range set is
non-empty — the two appended resolver ranges guarantee this even when the
chosen source contributes no valid range — and on the fallback path the
set does contain source ranges. -/
theorem c7_loaded_set_never_empty (f : RangesFetch) :
    (load_cloudflare_ipv4_networks f).isEmpty = false ∧
    (source_networks RangesFetch.failure).isEmpty = false := by
  constructor
  · unfold load_cloudflare_ipv4_networks
    cases h : source_networks f with
    | nil => decide
    | cons a l => rfl
  · decide

/-- C8: whatever the live fetch returned, the loaded set contains the
resolver ranges 1.1.1.0/24 and 1.0.0.0/24, so the validation predicate
rejects 1.1.1.1 and 1.0.0.1 against any loaded set; against the
documented fallback set it rejects 173.245.48.1 and accepts
93.184.216.34. -/
theorem c8_resolver_ranges_blocked (f : RangesFetch) :
    (⟨ipv4 1 1 1 0, 24⟩ : Net) ∈ load_cloudflare_ipv4_networks f ∧
    (⟨ipv4 1 0 0 0, 24⟩ : Net) ∈ load_cloudflare_ipv4_networks f ∧
    is_public_non_cloudflare_ipv4 (load_cloudflare_ipv4_networks f)
      "1.1.1.1" = false ∧
    is_public_non_cloudflare_ipv4 (load_cloudflare_ipv4_networks f)
      "1.0.0.1" = false ∧
    is_public_non_cloudflare_ipv4
      (load_cloudflare_ipv4_networks RangesFetch.failure)
      "173.245.48.1" = false ∧
    is_public_non_cloudflare_ipv4
      (load_cloudflare_ipv4_networks RangesFetch.failure)
      "93.184.216.34" = true := by
  have hm1 : (⟨ipv4 1 1 1 0, 24⟩ : Net) ∈ load_cloudflare_ipv4_networks f :=
    List.mem_append_right _ (by decide)
  have hm2 : (⟨ipv4 1 0 0 0, 24⟩ : Net) ∈ load_cloudflare_ipv4_networks f :=
    List.mem_append_right _ (by decide)
  refine ⟨hm1, hm2, ?_, ?_, by decide, by decide⟩
  · exact blocked_candidate_rejected _ "1.1.1.1" (ipv4 1 1 1 1)
      ⟨ipv4 1 1 1 0, 24⟩ (by decide) hm1 (by decide)
  · exact blocked_candidate_rejected _ "1.0.0.1" (ipv4 1 0 0 1)
      ⟨ipv4 1 0 0 0, 24⟩ (by decide) hm2 (by decide)

/-- C9: when the record-update PUT answers an envelope with success
false, update_dns reports the structured failure dict (status failure
with the provider's error payload) instead of raising, the cycle ends in
the handled-update outcome, and the loop goes on to process the remaining
cycles. -/
theorem c9_provider_failure_reported (record_name A rid c errs perrs : String)
    (rest : List DnsRecord) (envs : List CycleEnv) (h : A ≠ c) :
    run_cycles record_name
        (⟨.ok A, ⟨true, ⟨rid, c⟩ :: rest, errs⟩, ⟨false, perrs⟩⟩ :: envs)
      = (CycleOutcome.updated
           ⟨"failure", "Failed to update DNS. Error: " ++ perrs⟩,
         [(rid, ⟨"A", record_name, A, 120, false⟩)])
        :: run_cycles record_name envs := by
  simp [run_cycles, run_cycle, get_existing_dns_ip, update_dns, h]

/-- Witness for C9: a concrete divergent cycle with a rejecting provider
yields the reported failure outcome and the loop's list of processed
cycles goes on. -/
theorem c9_witness :
    ("2.2.2.2" : String) ≠ "1.1.1.1" ∧
    run_cycles "host.example"
        [⟨.ok "2.2.2.2", ⟨true, [⟨"rid", "1.1.1.1"⟩], "e"⟩, ⟨false, "boom"⟩⟩]
      = [(CycleOutcome.updated
            ⟨"failure", "Failed to update DNS. Error: boom"⟩,
          [("rid", ⟨"A", "host.example", "2.2.2.2", 120, false⟩)])] :=
  ⟨by decide,
   c9_provider_failure_reported "host.example" "2.2.2.2" "rid" "1.1.1.1"
     "e" "boom" [] [] (by decide)⟩

/-- Every segment of a split of an all-separator list is empty. -/
theorem splitOnP_all_sat (p : Char → Bool) :
    ∀ l : List Char, (∀ c ∈ l, p c = true) → ∀ seg ∈ splitOnP p l, seg = []
  | [], _, seg, hseg => by
    simp only [splitOnP, List.mem_singleton] at hseg
    exact hseg
  | c :: cs, h, seg, hseg => by
    have hc : p c = true := h c (List.mem_cons_self c cs)
    rw [splitOnP, if_pos hc] at hseg
    rcases List.mem_cons.mp hseg with h1 | h1
    · exact h1
    · exact splitOnP_all_sat p cs (fun x hx => h x (List.mem_cons_of_mem c hx))
        seg h1

/-- A body that is empty or all whitespace yields no first token, which
is the IndexError site in candidate extraction. -/
theorem firstToken_whitespace (text : String)
    (h : ∀ c ∈ text.data, c.isWhitespace = true) : firstToken text = none := by
  unfold firstToken
  have hf : (splitOnP Char.isWhitespace text.data).filter
      (fun seg => seg ≠ []) = [] := by
    rw [List.filter_eq_nil_iff]
    intro seg hseg
    have := splitOnP_all_sat Char.isWhitespace text.data h seg hseg
    simp [this]
  rw [hf]
  rfl

/-- C10: an endpoint whose HTTP request succeeds with an empty or
all-whitespace body is treated as a failed endpoint: the loop catches the
token-extraction IndexError, records it as last_error, and continues with
the remaining endpoints, so such an endpoint never supplies the returned
value and never aborts resolution with anything but the final
all-endpoints-failed error. -/
theorem c10_empty_body_skips_endpoint (networks : List Net) (text : String)
    (rest : List EndpointResult) (last : Option FetchFault)
    (h : ∀ c ∈ text.data, c.isWhitespace = true) :
    get_public_ip_loop networks (EndpointResult.ok text :: rest) last
      = get_public_ip_loop networks rest (some FetchFault.emptyBody) := by
  rw [get_public_ip_loop]
  simp only [firstToken_whitespace text h]

/-- Witness for C10: a body holding one space and one newline is skipped
and the empty-body fault is recorded. -/
theorem c10_witness :
    (∀ c ∈ (" \n" : String).data, c.isWhitespace = true) ∧
    get_public_ip_loop [] [EndpointResult.ok " \n"] none
      = get_public_ip_loop [] [] (some FetchFault.emptyBody) :=
  ⟨by decide, c10_empty_body_skips_endpoint [] " \n" [] none (by decide)⟩

end CurtsDDNS
